import Mathlib

/-!
Shallow embedding of the mcp-weather-server core (src/services/weather.py,
src/services/geocoding.py).  Upstream HTTP providers are modelled as an
explicit environment of oracle functions; every outbound provider call is
recorded in an event log so that claims about which providers are contacted
(and in which order) can be stated.  Python floats are modelled as rationals;
Python exceptions raised by a provider are modelled as explicit result
constructors, and the services' try/except blocks as the corresponding
branches.
-/

namespace WeatherMCP

/-- Python exception value; only its `str(e)` message is observable here. -/
structure PyExn where
  msg : String
  deriving DecidableEq

/-- A scalar JSON field that may arrive as a number or as a numeric string
(the Census provider encodes coordinates either way). -/
inductive PyScalar where
  | num (q : ℚ)
  | str (s : String)
  deriving DecidableEq

/-- Digits of a decimal numeral folded into a natural number. -/
def digitsToNat (cs : List Char) : Nat :=
  cs.foldl (fun a c => a * 10 + (c.toNat - 48)) 0

def allDigits (cs : List Char) : Bool :=
  cs.all Char.isDigit

/-- Leading and trailing whitespace removed, as Python float() does before
parsing (structural recursion so that proofs can evaluate it). -/
def stripChars (cs : List Char) : List Char :=
  ((cs.dropWhile Char.isWhitespace).reverse.dropWhile Char.isWhitespace).reverse

/-- Modelled from the spec: the unsigned part of Python's built-in float()
conversion of a decimal numeral string (digits with an optional single
decimal point; at least one digit overall). -/
def pyFloatCore (cs : List Char) : Option ℚ :=
  let ip := cs.takeWhile (fun c => c != '.')
  match cs.dropWhile (fun c => c != '.') with
  | [] => if !ip.isEmpty && allDigits ip then some (digitsToNat ip : ℚ) else none
  | _ :: fp =>
      if (!ip.isEmpty || !fp.isEmpty) && allDigits ip && allDigits fp then
        some ((digitsToNat ip : ℚ) + (digitsToNat fp : ℚ) / (10 ^ fp.length : ℚ))
      else none

/-- Modelled from the spec: Python's built-in float() on decimal numeral
strings (optional sign, optional single decimal point, surrounding
whitespace stripped); anything else raises, modelled as none. -/
def pyFloatOfString (s : String) : Option ℚ :=
  match stripChars s.data with
  | [] => none
  | '-' :: rest => (pyFloatCore rest).map Neg.neg
  | '+' :: rest => pyFloatCore rest
  | cs => pyFloatCore cs

/-- float() applied to a scalar field: numbers pass through, strings are
parsed; failure models the raised ValueError (caught by the service). -/
def pyFloat : PyScalar → Option ℚ
  | .num q => some q
  | .str s => pyFloatOfString s

/-- The coordinates dict of a Census address match: keys x (longitude) and
y (latitude), each possibly absent (KeyError when accessed). -/
structure CoordDict where
  x : Option PyScalar
  y : Option PyScalar
  deriving DecidableEq

/-- One entry of result.addressMatches; the coordinates key may be absent. -/
structure AddressMatch where
  coordinates : Option CoordDict
  deriving DecidableEq

/-- Parsed body of a Census geocoder response:
data.get('result', \x7b\x7d).get('addressMatches') read as a list, with a
missing or null field read as the empty list (both are falsy in Python). -/
structure CensusBody where
  addressMatches : List AddressMatch
  deriving DecidableEq

/-- Parsed body of a points response: properties.forecast if present. -/
structure PointsBody where
  forecast : Option String
  deriving DecidableEq

/-- One forecast period; each field is an Option because accessing a missing
key raises KeyError (caught by the service).  Temperatures from the feed are
integers and are rendered in decimal by the f-string. -/
structure Period where
  name : Option String
  shortForecast : Option String
  temperature : Option Int
  temperatureUnit : Option String
  deriving DecidableEq

/-- Parsed body of a forecast feed response: properties.periods if present. -/
structure ForecastBody where
  periods : Option (List Period)
  deriving DecidableEq

/-- Outcome of one requests.get call: either some layer raised (connection
error, timeout, or a JSON-parse error on the body), or a status code plus
the parsed body. -/
inductive HttpResult (α : Type) where
  | exn
  | resp (status : Nat) (body : α)
  deriving DecidableEq

/-- Outcome of one geopy geocode call: an exception, a falsy (not found)
location, or a location carrying latitude and longitude. -/
inductive GeoResult where
  | exn
  | notFound
  | found (lat lon : ℚ)
  deriving DecidableEq

def GeoResult.isFound : GeoResult → Bool
  | .found _ _ => true
  | _ => false

/-- One outbound provider call, as observed on the wire. -/
inductive Event where
  | censusGet (address : String)
  | geocode (ua : String) (query : String) (countryCodes : Option String)
  | pointsGet (lat lon : ℚ)
  | forecastGet (url : String)
  deriving DecidableEq

/-- The behaviour of the upstream providers during one request: census GET
keyed by the address parameter, geopy geocode keyed by user agent, query and
country filter, NWS points keyed by the coordinate, forecast feed keyed by
its URL. -/
structure ProviderEnv where
  census : String → HttpResult CensusBody
  geocode : String → String → Option String → GeoResult
  points : ℚ → ℚ → HttpResult PointsBody
  forecast : String → HttpResult ForecastBody

/-- Python truthiness of an optional string argument: None and the empty
string are falsy, every other string (whitespace included) is truthy. -/
def pyTruthy : Option String → Bool
  | none => false
  | some s => !s.isEmpty

/-- How an optional string renders inside an f-string: None prints as the
word None, a string prints verbatim. -/
def pyStrOfOpt : Option String → String
  | none => "None"
  | some s => s

/-- requests.Response.raise_for_status raises for 4xx and 5xx codes. -/
def raiseForStatus (st : Nat) : Bool :=
  400 ≤ st && st < 600

/-- mcp_utils TextContent block. -/
structure TextContent where
  type : String
  text : String
  deriving DecidableEq

/-- mcp_utils CallToolResult envelope. -/
structure CallToolResult where
  content : List TextContent
  deriving DecidableEq

def okText (t : String) : CallToolResult :=
  { content := [{ type := "text", text := t }] }

def errText (m : String) : CallToolResult :=
  { content := [{ type := "text", text := "Error: " ++ m }] }

/-- GeocodingService._try_census_api: one GET against the Census geocoder;
on status 200 take the first address match and coerce its y (latitude) and
x (longitude) to float; every failure path returns (None, None). -/
def tryCensusApi (env : ProviderEnv) (zip_code : String) :
    (Option ℚ × Option ℚ) × List Event :=
  let ev := [Event.censusGet zip_code]
  match env.census zip_code with
  | .exn => ((none, none), ev)
  | .resp st body =>
    if st == 200 then
      match body.addressMatches with
      | [] => ((none, none), ev)
      | m :: _ =>
        match m.coordinates with
        | none => ((none, none), ev)
        | some cd =>
          match cd.y, cd.x with
          | some yv, some xv =>
            match pyFloat yv, pyFloat xv with
            | some la, some lo => ((some la, some lo), ev)
            | _, _ => ((none, none), ev)
          | _, _ => ((none, none), ev)
    else ((none, none), ev)

/-- The four query formats tried by GeocodingService._try_nominatim_zip,
in source order. -/
def nominatimFormats (zip_code : String) : List String :=
  ["postcode:" ++ zip_code ++ ", country:US",
   zip_code ++ ", United States",
   zip_code ++ ", USA",
   zip_code ++ ", US"]

/-- The for-loop body of _try_nominatim_zip: try each format in order with
the us country filter, return at the first truthy location, treat an
exception or a falsy location as this format having failed. -/
def nominatimLoop (env : ProviderEnv) :
    List String → (Option ℚ × Option ℚ) × List Event
  | [] => ((none, none), [])
  | q :: rest =>
    let ev := Event.geocode "weather-mcp-improved" q (some "us")
    match env.geocode "weather-mcp-improved" q (some "us") with
    | .found la lo => ((some la, some lo), [ev])
    | _ =>
      let (r, evs) := nominatimLoop env rest
      (r, ev :: evs)

/-- GeocodingService._try_nominatim_zip. -/
def tryNominatimZip (env : ProviderEnv) (zip_code : String) :
    (Option ℚ × Option ℚ) × List Event :=
  nominatimLoop env (nominatimFormats zip_code)

/-- GeocodingService.resolve_zip_code: Census first, Nominatim as fallback,
(None, None) when both fail. -/
def resolve_zip_code (env : ProviderEnv) (zip_code : String) :
    (Option ℚ × Option ℚ) × List Event :=
  let (r1, ev1) := tryCensusApi env zip_code
  match r1 with
  | (some la, some lo) => ((some la, some lo), ev1)
  | _ =>
    let (r2, ev2) := tryNominatimZip env zip_code
    match r2 with
    | (some la, some lo) => ((some la, some lo), ev1 ++ ev2)
    | _ => (((none : Option ℚ), (none : Option ℚ)), ev1 ++ ev2)

/-- GeocodingService.resolve_city: a single geocode call with user agent
weather-mcp and no country filter; not-found and exceptions both give
(None, None). -/
def resolve_city (env : ProviderEnv) (city : String) :
    (Option ℚ × Option ℚ) × List Event :=
  let ev := [Event.geocode "weather-mcp" city none]
  match env.geocode "weather-mcp" city none with
  | .found la lo => ((some la, some lo), ev)
  | _ => ((none, none), ev)

/-- WeatherService._resolve_location: zip_code takes priority when truthy,
else city, else raise ValueError. -/
def resolveLocation (env : ProviderEnv) (city zip_code : Option String) :
    Except PyExn (Option ℚ × Option ℚ) × List Event :=
  if pyTruthy zip_code then
    let (r, evs) := resolve_zip_code env (zip_code.getD "")
    (.ok r, evs)
  else if pyTruthy city then
    let (r, evs) := resolve_city env (city.getD "")
    (.ok r, evs)
  else
    (.error { msg := "Provide city or zip_code" }, [])

/-- The f-string of _fetch_weather_forecast. -/
def formatForecast (name shortForecast : String) (temperature : Int)
    (temperatureUnit : String) : String :=
  name ++ ": " ++ shortForecast ++ " at " ++ toString temperature ++ "°"
    ++ temperatureUnit

/-- WeatherService._fetch_weather_forecast: points lookup, then the forecast
feed discovered from its body, then the first period formatted; every
failure (exception, 4xx/5xx status, missing field, empty periods) is caught
and collapses to None. -/
def fetchWeatherForecast (env : ProviderEnv) (lat lon : ℚ) :
    Option String × List Event :=
  let ev1 := Event.pointsGet lat lon
  match env.points lat lon with
  | .exn => (none, [ev1])
  | .resp st body =>
    if raiseForStatus st then (none, [ev1])
    else
      match body.forecast with
      | none => (none, [ev1])
      | some url =>
        match env.forecast url with
        | .exn => (none, [ev1, Event.forecastGet url])
        | .resp st2 b2 =>
          if raiseForStatus st2 then (none, [ev1, Event.forecastGet url])
          else
            match b2.periods with
            | none => (none, [ev1, Event.forecastGet url])
            | some [] => (none, [ev1, Event.forecastGet url])
            | some (p :: _) =>
              match p.name, p.shortForecast, p.temperature,
                  p.temperatureUnit with
              | some n, some sf, some tm, some u =>
                (some (formatForecast n sf tm u), [ev1, Event.forecastGet url])
              | _, _, _, _ => (none, [ev1, Event.forecastGet url])

/-- WeatherService.get_weather: resolve the location, fetch the forecast,
wrap everything in a single text block; the outer try/except turns the
ValueError from _resolve_location into error text. -/
def get_weather (env : ProviderEnv) (city zip_code : Option String) :
    CallToolResult × List Event :=
  match resolveLocation env city zip_code with
  | (.error e, evs) =>
    (errText ("Weather service error: " ++ e.msg), evs)
  | (.ok (latO, lonO), evs) =>
    match latO, lonO with
    | some lat, some lon =>
      let (f, evs2) := fetchWeatherForecast env lat lon
      match f with
      | some t =>
        if t.isEmpty then (errText "Failed to fetch weather forecast", evs ++ evs2)
        else (okText t, evs ++ evs2)
      | none => (errText "Failed to fetch weather forecast", evs ++ evs2)
    | _, _ =>
      (errText ("Could not resolve location: city=" ++ pyStrOfOpt city
        ++ ", zip_code=" ++ pyStrOfOpt zip_code), evs)

/-- An environment in which every provider raises. -/
def trivEnv : ProviderEnv :=
  { census := fun _ => .exn
    geocode := fun _ _ _ => .exn
    points := fun _ _ => .exn
    forecast := fun _ => .exn }

/-- True of the geocode call resolve_city makes (user agent weather-mcp). -/
def isCityGeocode : Event → Bool
  | .geocode ua _ _ => ua == "weather-mcp"
  | _ => false

/-- The coordinates dict of oneMatchBody. -/
def oneMatchCd : CoordDict :=
  { x := some (.num (-74)), y := some (.num 40) }

/-- A Census body holding one match at (y, x) = (40, -74). -/
def oneMatchBody : CensusBody :=
  { addressMatches := [{ coordinates := some oneMatchCd }] }

/-- An environment whose Census provider answers every address with
oneMatchBody; every other provider raises. -/
def wsEnv : ProviderEnv :=
  { census := fun _ => .resp 200 oneMatchBody
    geocode := fun _ _ _ => .exn
    points := fun _ _ => .exn
    forecast := fun _ => .exn }

/-- The coordinates dict of censusStrBody: both fields numeric strings. -/
def censusStrCd : CoordDict :=
  { x := some (.str "-74.006"), y := some (.str "40.7128") }

/-- A Census body holding one match whose coordinates arrive as strings. -/
def censusStrBody : CensusBody :=
  { addressMatches := [{ coordinates := some censusStrCd }] }

/-- An environment whose Census provider answers every address with
censusStrBody; every other provider raises. -/
def censusStrEnv : ProviderEnv :=
  { census := fun _ => .resp 200 censusStrBody
    geocode := fun _ _ _ => .exn
    points := fun _ _ => .exn
    forecast := fun _ => .exn }

end WeatherMCP

namespace WeatherMCP

/-! ### Structural lemmas shared between claims -/

theorem tryCensusApi_events (env : ProviderEnv) (z : String) :
    (tryCensusApi env z).2 = [Event.censusGet z] := by
  unfold tryCensusApi
  repeat' split
  all_goals rfl

theorem tryCensusApi_shape (env : ProviderEnv) (z : String) :
    (∃ la lo, (tryCensusApi env z).1 = (some la, some lo))
      ∨ (tryCensusApi env z).1 = (none, none) := by
  unfold tryCensusApi
  repeat' split
  all_goals first
    | exact Or.inl ⟨_, _, rfl⟩
    | exact Or.inr rfl

theorem nominatimLoop_shape (env : ProviderEnv) (qs : List String) :
    (∃ la lo, (nominatimLoop env qs).1 = (some la, some lo))
      ∨ (nominatimLoop env qs).1 = (none, none) := by
  induction qs with
  | nil => exact Or.inr rfl
  | cons q rest ih =>
    unfold nominatimLoop
    split
    · exact Or.inl ⟨_, _, rfl⟩
    · simpa using ih

theorem nominatimLoop_no_city_event (env : ProviderEnv) (qs : List String) :
    ∀ e ∈ (nominatimLoop env qs).2, isCityGeocode e = false := by
  induction qs with
  | nil => intro e he; cases he
  | cons q rest ih =>
    unfold nominatimLoop
    rcases hnl : nominatimLoop env rest with ⟨r, evs⟩
    rw [hnl] at ih
    split
    · intro e he
      rw [List.mem_singleton] at he
      subst he
      rfl
    · intro e he
      rcases List.mem_cons.mp he with rfl | he
      · rfl
      · exact ih e he

theorem resolve_zip_code_no_city_event (env : ProviderEnv) (z : String) :
    ∀ e ∈ (resolve_zip_code env z).2, isCityGeocode e = false := by
  have hev := tryCensusApi_events env z
  have hnom := nominatimLoop_no_city_event env (nominatimFormats z)
  have hcen : ∀ e ∈ (tryCensusApi env z).2, isCityGeocode e = false := by
    rw [hev]
    intro e he
    rw [List.mem_singleton] at he
    subst he
    rfl
  unfold resolve_zip_code
  rcases htc : tryCensusApi env z with ⟨⟨laO, loO⟩, ev1⟩
  rw [htc] at hcen
  unfold tryNominatimZip at *
  rcases hnz : nominatimLoop env (nominatimFormats z) with ⟨⟨laO2, loO2⟩, ev2⟩
  rw [hnz] at hnom
  have hboth : ∀ e ∈ ev1 ++ ev2, isCityGeocode e = false := by
    intro e he
    rcases List.mem_append.mp he with he | he
    · exact hcen e he
    · exact hnom e he
  rcases laO with _ | la <;> rcases loO with _ | lo <;>
    rcases laO2 with _ | la2 <;> rcases loO2 with _ | lo2 <;>
    first
      | exact hcen
      | exact hboth

/-- C9: resolve_zip_code returns either a fully resolved coordinate pair or
exactly (None, None); a pair with exactly one None component is impossible. -/
theorem resolve_zip_code_all_or_nothing (env : ProviderEnv) (z : String) :
    (∃ la lo, (resolve_zip_code env z).1 = (some la, some lo))
      ∨ (resolve_zip_code env z).1 = (none, none) := by
  unfold resolve_zip_code
  rcases htc : tryCensusApi env z with ⟨⟨laO, loO⟩, ev1⟩
  unfold tryNominatimZip
  rcases hnz : nominatimLoop env (nominatimFormats z) with ⟨⟨laO2, loO2⟩, ev2⟩
  rcases laO with _ | la <;> rcases loO with _ | lo <;>
    rcases laO2 with _ | la2 <;> rcases loO2 with _ | lo2 <;>
    first
      | exact Or.inl ⟨_, _, rfl⟩
      | exact Or.inr rfl

/-- C1 counterexample: with no inputs supplied, the returned text is the
wrapped message "Error: Weather service error: Provide city or zip_code",
not the bare string "Provide city or zip_code" the claim states (the
ValueError message passes through two formatting layers first); no provider
call is made. -/
theorem get_weather_missing_input_text_not_bare :
    (get_weather trivEnv none none).1
        = errText "Weather service error: Provide city or zip_code"
      ∧ (get_weather trivEnv none none).1.content.map TextContent.text
          ≠ ["Provide city or zip_code"]
      ∧ (get_weather trivEnv none none).2 = [] :=
  ⟨rfl, by decide, rfl⟩

/-- C1 (amended): when both city and zip_code are empty or absent,
get_weather returns a single text block reading exactly
"Error: Weather service error: Provide city or zip_code" and issues no
provider call. -/
theorem get_weather_missing_input_error (env : ProviderEnv)
    (city zip_code : Option String)
    (hc : pyTruthy city = false) (hz : pyTruthy zip_code = false) :
    get_weather env city zip_code
      = (errText "Weather service error: Provide city or zip_code", []) := by
  unfold get_weather resolveLocation
  rw [hz, hc]
  simp

theorem get_weather_missing_input_error_witness :
    pyTruthy (some "") = false ∧ pyTruthy none = false ∧
    get_weather trivEnv (some "") none
      = (errText "Weather service error: Provide city or zip_code", []) :=
  ⟨rfl, rfl, get_weather_missing_input_error trivEnv (some "") none rfl rfl⟩

/-- C7 counterexample: a whitespace-only zip_code is empty after trimming,
yet it is truthy in Python, so resolution does not short-circuit: the
Census provider is called with the whitespace address and its answer is
accepted, refuting the claim at the concrete input zip_code = " ". -/
theorem whitespace_zip_reaches_provider :
    stripChars (" ").data = []
      ∧ (resolveLocation wsEnv none (some " ")).2 = [Event.censusGet " "]
      ∧ (resolveLocation wsEnv none (some " ")).1
          = .ok (some (40 : ℚ), some ((-74 : ℚ))) := by
  refine ⟨by decide, rfl, rfl⟩

/-- C7 (amended): only an input that is absent or exactly the empty string
(no trimming is applied) fails Python truthiness; when both inputs are such,
resolution short-circuits to the raised ValueError and no provider is
called.  Whitespace-only strings are truthy and do reach a provider. -/
theorem empty_or_absent_short_circuits (env : ProviderEnv)
    (city zip_code : Option String)
    (hc : pyTruthy city = false) (hz : pyTruthy zip_code = false) :
    resolveLocation env city zip_code
      = (.error { msg := "Provide city or zip_code" }, []) := by
  unfold resolveLocation
  rw [hz, hc]
  simp

theorem empty_or_absent_short_circuits_witness :
    pyTruthy (some "") = false ∧ pyTruthy none = false ∧
    resolveLocation trivEnv (some "") none
      = (.error { msg := "Provide city or zip_code" }, []) :=
  ⟨rfl, rfl, empty_or_absent_short_circuits trivEnv (some "") none rfl rfl⟩

/-- C6: a non-empty zip_code routes resolution through resolve_zip_code,
whatever city holds, and no resolve_city geocode call (user agent
weather-mcp, no country filter) ever appears in the provider log. -/
theorem zip_priority_over_city (env : ProviderEnv) (city : Option String)
    (z : String) (hz : z ≠ "") :
    resolveLocation env city (some z)
        = (.ok (resolve_zip_code env z).1, (resolve_zip_code env z).2)
      ∧ ∀ e ∈ (resolveLocation env city (some z)).2, isCityGeocode e = false := by
  have hne : z.isEmpty = false := by
    rcases h : z.isEmpty
    · rfl
    · exact absurd ((String.isEmpty_iff z).mp h) hz
  have ht : pyTruthy (some z) = true := by
    simp [pyTruthy, hne]
  have hnc := resolve_zip_code_no_city_event env z
  have hsel : resolveLocation env city (some z)
      = (.ok (resolve_zip_code env z).1, (resolve_zip_code env z).2) := by
    unfold resolveLocation
    rw [ht]
    simp only [Option.getD_some]
    rcases resolve_zip_code env z with ⟨r, evs⟩
    rfl
  refine ⟨hsel, ?_⟩
  rw [hsel]
  exact hnc

theorem zip_priority_over_city_witness :
    ("10001" : String) ≠ ""
      ∧ (resolveLocation wsEnv (some "Boston") (some "10001")
            = (.ok (resolve_zip_code wsEnv "10001").1,
               (resolve_zip_code wsEnv "10001").2)
          ∧ ∀ e ∈ (resolveLocation wsEnv (some "Boston") (some "10001")).2,
              isCityGeocode e = false) :=
  ⟨by decide, zip_priority_over_city wsEnv (some "Boston") "10001" (by decide)⟩

/-- C2: when the Census provider answers 200 with at least one address
match whose coordinates carry float-coercible x and y fields — numbers or
numeric strings — resolve_zip_code returns (float(y), float(x)) from the
first match, and the only provider call is the single Census GET: the
Nominatim fallback is never invoked. -/
theorem census_match_resolves (env : ProviderEnv) (z : String)
    (body : CensusBody) (m : AddressMatch) (ms : List AddressMatch)
    (cd : CoordDict) (xv yv : PyScalar) (la lo : ℚ)
    (hresp : env.census z = .resp 200 body)
    (hms : body.addressMatches = m :: ms)
    (hcd : m.coordinates = some cd)
    (hy : cd.y = some yv) (hx : cd.x = some xv)
    (hla : pyFloat yv = some la) (hlo : pyFloat xv = some lo) :
    resolve_zip_code env z = ((some la, some lo), [Event.censusGet z]) := by
  have hc : tryCensusApi env z = ((some la, some lo), [Event.censusGet z]) := by
    unfold tryCensusApi
    rw [hresp]
    simp [hms, hcd, hy, hx, hla, hlo]
  unfold resolve_zip_code
  rw [hc]

theorem census_match_resolves_witness :
    censusStrEnv.census "10001" = .resp 200 censusStrBody
      ∧ pyFloat (.str "40.7128") = some ((40 : ℚ) + (7128 : ℚ) / 10 ^ 4)
      ∧ pyFloat (.str "-74.006") = some (-((74 : ℚ) + (6 : ℚ) / 10 ^ 3))
      ∧ resolve_zip_code censusStrEnv "10001"
          = ((some ((40 : ℚ) + (7128 : ℚ) / 10 ^ 4),
              some (-((74 : ℚ) + (6 : ℚ) / 10 ^ 3))),
             [Event.censusGet "10001"]) :=
  ⟨rfl, rfl, rfl,
   census_match_resolves censusStrEnv "10001" censusStrBody
     { coordinates := some censusStrCd } [] censusStrCd
     (.str "-74.006") (.str "40.7128")
     ((40 : ℚ) + (7128 : ℚ) / 10 ^ 4) (-((74 : ℚ) + (6 : ℚ) / 10 ^ 3))
     rfl rfl rfl rfl rfl rfl rfl⟩

theorem tryNominatimZip_shape (env : ProviderEnv) (z : String) :
    (∃ la lo, (tryNominatimZip env z).1 = (some la, some lo))
      ∨ (tryNominatimZip env z).1 = (none, none) :=
  nominatimLoop_shape env (nominatimFormats z)

/-- What C3 asserts of the fallback once the Census step has failed: the
result and full call log of resolve_zip_code are the Census GET followed by
the Nominatim attempts, and those attempts walk the four formats in order,
stop at the first found location, treat exception and not-found alike as
failure, and carry the us country filter every time. -/
def fallbackSpec (env : ProviderEnv) (z : String) : Prop :=
  resolve_zip_code env z
      = ((tryNominatimZip env z).1,
         Event.censusGet z :: (tryNominatimZip env z).2)
    ∧ (let q1 := "postcode:" ++ z ++ ", country:US"
       let q2 := z ++ ", United States"
       let q3 := z ++ ", USA"
       let q4 := z ++ ", US"
       let call := fun q => Event.geocode "weather-mcp-improved" q (some "us")
       let a := fun q => env.geocode "weather-mcp-improved" q (some "us")
       (∃ la lo, a q1 = .found la lo
          ∧ tryNominatimZip env z = ((some la, some lo), [call q1]))
       ∨ ((a q1).isFound = false ∧ ∃ la lo, a q2 = .found la lo
          ∧ tryNominatimZip env z = ((some la, some lo), [call q1, call q2]))
       ∨ ((a q1).isFound = false ∧ (a q2).isFound = false
          ∧ ∃ la lo, a q3 = .found la lo
          ∧ tryNominatimZip env z
              = ((some la, some lo), [call q1, call q2, call q3]))
       ∨ ((a q1).isFound = false ∧ (a q2).isFound = false
          ∧ (a q3).isFound = false ∧ ∃ la lo, a q4 = .found la lo
          ∧ tryNominatimZip env z
              = ((some la, some lo), [call q1, call q2, call q3, call q4]))
       ∨ ((a q1).isFound = false ∧ (a q2).isFound = false
          ∧ (a q3).isFound = false ∧ (a q4).isFound = false
          ∧ tryNominatimZip env z
              = ((none, none), [call q1, call q2, call q3, call q4])))

/-- C3: whenever the Census step yields no coordinate, the Nominatim
fallback tries at most the four query formats in their fixed order, stops
at the first attempt returning a location, treats an exception on an
attempt exactly like an empty result (advance to the next format), and
passes the us country filter on every attempt. -/
theorem nominatim_fallback_order (env : ProviderEnv) (z : String)
    (hc : (tryCensusApi env z).1 = (none, none)) :
    fallbackSpec env z := by
  constructor
  · have hev := tryCensusApi_events env z
    have hshape := tryNominatimZip_shape env z
    unfold resolve_zip_code
    rcases htc : tryCensusApi env z with ⟨⟨laO, loO⟩, ev1⟩
    rw [htc] at hc hev
    simp only at hc hev
    injection hc with hla hlo
    subst hla
    subst hlo
    subst hev
    unfold tryNominatimZip at *
    rcases hnz : nominatimLoop env (nominatimFormats z) with ⟨⟨la2O, lo2O⟩, ev2⟩
    rw [hnz] at hshape
    rcases la2O with _ | la2 <;> rcases lo2O with _ | lo2
    · rfl
    · rcases hshape with ⟨la, lo, hx⟩ | hx <;> simp at hx
    · rcases hshape with ⟨la, lo, hx⟩ | hx <;> simp at hx
    · rfl
  · dsimp only
    rcases h1 : env.geocode "weather-mcp-improved"
        ("postcode:" ++ z ++ ", country:US") (some "us") with _ | _ | ⟨la1, lo1⟩ <;>
      rcases h2 : env.geocode "weather-mcp-improved"
          (z ++ ", United States") (some "us") with _ | _ | ⟨la2, lo2⟩ <;>
        rcases h3 : env.geocode "weather-mcp-improved"
            (z ++ ", USA") (some "us") with _ | _ | ⟨la3, lo3⟩ <;>
          rcases h4 : env.geocode "weather-mcp-improved"
              (z ++ ", US") (some "us") with _ | _ | ⟨la4, lo4⟩ <;>
            simp [tryNominatimZip, nominatimFormats, nominatimLoop,
              GeoResult.isFound, h1, h2, h3, h4]

/-- An environment where Census raises, the first Nominatim format raises,
and the second format finds a location: the fallback must advance past the
exception and stop at attempt two. -/
def nomEnv : ProviderEnv :=
  { census := fun _ => .exn
    geocode := fun _ q _ =>
      if q = "99999, United States" then .found 39 (-77) else .exn
    points := fun _ _ => .exn
    forecast := fun _ => .exn }

theorem nominatim_fallback_order_witness :
    (tryCensusApi nomEnv "99999").1 = (none, none)
      ∧ fallbackSpec nomEnv "99999" :=
  ⟨rfl, nominatim_fallback_order nomEnv "99999" rfl⟩

end WeatherMCP

namespace WeatherMCP

/-- C8: when both forecast calls succeed and the first period carries all
four fields, the fetched string is exactly the f-string
name ++ ": " ++ shortForecast ++ " at " ++ temperature ++ "°" ++ unit. -/
theorem forecast_format (env : ProviderEnv) (lat lon : ℚ)
    (st1 st2 : Nat) (pb : PointsBody) (fb : ForecastBody) (url : String)
    (p : Period) (ps : List Period) (n sf u : String) (tm : Int)
    (hp : env.points lat lon = .resp st1 pb)
    (hs1 : raiseForStatus st1 = false)
    (hf : pb.forecast = some url)
    (hq : env.forecast url = .resp st2 fb)
    (hs2 : raiseForStatus st2 = false)
    (hper : fb.periods = some (p :: ps))
    (hn : p.name = some n) (hsf : p.shortForecast = some sf)
    (htm : p.temperature = some tm) (hu : p.temperatureUnit = some u) :
    (fetchWeatherForecast env lat lon).1 = some (formatForecast n sf tm u) := by
  unfold fetchWeatherForecast
  rw [hp]
  simp [hs1, hf, hq, hs2, hper, hn, hsf, htm, hu]

/-- The example period of the spec's round-trip scenario. -/
def fcPeriod : Period :=
  { name := some "Today", shortForecast := some "Sunny",
    temperature := some 70, temperatureUnit := some "F" }

def fcPointsBody : PointsBody :=
  { forecast := some "https://api.weather.gov/gridpoints/x/y/forecast" }

def fcForecastBody : ForecastBody :=
  { periods := some [fcPeriod] }

/-- An environment realising the round-trip scenario. -/
def fcEnv : ProviderEnv :=
  { census := fun _ => .exn
    geocode := fun _ _ _ => .exn
    points := fun _ _ => .resp 200 fcPointsBody
    forecast := fun _ => .resp 200 fcForecastBody }

theorem forecast_format_witness :
    fcEnv.points 40 (-74) = .resp 200 fcPointsBody
      ∧ fcForecastBody.periods = some [fcPeriod]
      ∧ (fetchWeatherForecast fcEnv 40 (-74)).1 = some "Today: Sunny at 70°F" :=
  ⟨rfl, rfl,
   forecast_format fcEnv 40 (-74) 200 200 fcPointsBody fcForecastBody
     "https://api.weather.gov/gridpoints/x/y/forecast"
     fcPeriod [] "Today" "Sunny" "F" 70
     rfl rfl rfl rfl rfl rfl rfl rfl rfl rfl⟩

/-- C5: when resolution succeeds, the grid lookup succeeds, but the feed
answers with an empty periods list, the period access is a caught failure:
the fetch collapses to None and get_weather reports
"Error: Failed to fetch weather forecast"; no fault escapes. -/
theorem empty_periods_reported (env : ProviderEnv)
    (city zip_code : Option String) (lat lon : ℚ)
    (st1 st2 : Nat) (pb : PointsBody) (fb : ForecastBody) (url : String)
    (hres : (resolveLocation env city zip_code).1 = .ok (some lat, some lon))
    (hp : env.points lat lon = .resp st1 pb)
    (hs1 : raiseForStatus st1 = false)
    (hf : pb.forecast = some url)
    (hq : env.forecast url = .resp st2 fb)
    (hs2 : raiseForStatus st2 = false)
    (hper : fb.periods = some []) :
    (fetchWeatherForecast env lat lon).1 = none
      ∧ (get_weather env city zip_code).1
          = errText "Failed to fetch weather forecast" := by
  have hfetch : fetchWeatherForecast env lat lon
      = (none, [Event.pointsGet lat lon, Event.forecastGet url]) := by
    unfold fetchWeatherForecast
    rw [hp]
    simp [hs1, hf, hq, hs2, hper]
  refine ⟨by rw [hfetch], ?_⟩
  unfold get_weather
  rcases hrl : resolveLocation env city zip_code with ⟨r, evs⟩
  rw [hrl] at hres
  simp only at hres
  subst hres
  simp [hfetch]

/-- An environment realising the empty-periods scenario through the city
path. -/
def emptyPeriodsEnv : ProviderEnv :=
  { census := fun _ => .exn
    geocode := fun _ _ _ => .found 40 (-74)
    points := fun _ _ => .resp 200 fcPointsBody
    forecast := fun _ => .resp 200 { periods := some [] } }

theorem empty_periods_reported_witness :
    (resolveLocation emptyPeriodsEnv (some "Boston") none).1
        = .ok (some (40 : ℚ), some ((-74 : ℚ)))
      ∧ ((fetchWeatherForecast emptyPeriodsEnv 40 (-74)).1 = none
          ∧ (get_weather emptyPeriodsEnv (some "Boston") none).1
              = errText "Failed to fetch weather forecast") :=
  ⟨rfl,
   empty_periods_reported emptyPeriodsEnv (some "Boston") none 40 (-74)
     200 200 fcPointsBody { periods := some [] }
     "https://api.weather.gov/gridpoints/x/y/forecast"
     rfl rfl rfl rfl rfl rfl rfl⟩

/-- Every string the fetch can return successfully is an instance of the
forecast f-string. -/
theorem fetchWeatherForecast_format (env : ProviderEnv) (lat lon : ℚ)
    (t : String) (h : (fetchWeatherForecast env lat lon).1 = some t) :
    ∃ n sf tm u, t = formatForecast n sf tm u := by
  unfold fetchWeatherForecast at h
  repeat' split at h
  all_goals simp_all
  exact ⟨_, _, _, _, h.symm⟩

/-- C4: for every environment and input, get_weather returns an envelope
with exactly one text content block, whose text is either of the error
shape "Error: <message>" or a formatted forecast sentence. -/
theorem get_weather_envelope (env : ProviderEnv)
    (city zip_code : Option String) :
    ∃ t, (get_weather env city zip_code).1
        = { content := [{ type := "text", text := t }] }
      ∧ ((∃ m, t = "Error: " ++ m) ∨ ∃ n sf tm u, t = formatForecast n sf tm u) := by
  unfold get_weather
  rcases hrl : resolveLocation env city zip_code with ⟨r, evs⟩
  rcases r with e | ⟨laO, loO⟩
  · exact ⟨_, rfl, Or.inl ⟨_, rfl⟩⟩
  · rcases laO with _ | la
    · exact ⟨_, rfl, Or.inl ⟨_, rfl⟩⟩
    · rcases loO with _ | lo
      · exact ⟨_, rfl, Or.inl ⟨_, rfl⟩⟩
      · rcases hfe : fetchWeatherForecast env la lo with ⟨fO, evs2⟩
        simp only [hfe]
        rcases fO with _ | t
        · exact ⟨_, rfl, Or.inl ⟨_, rfl⟩⟩
        · rcases ht : t.isEmpty
          · simp only [ht, Bool.false_eq_true, if_false]
            refine ⟨t, rfl, Or.inr ?_⟩
            exact fetchWeatherForecast_format env la lo t (by rw [hfe])
          · simp only [ht, if_true]
            exact ⟨_, rfl, Or.inl ⟨_, rfl⟩⟩

/-- A period whose name field itself is the string "Error". -/
def spoofPeriod : Period :=
  { name := some "Error", shortForecast := some "Sunny",
    temperature := some 70, temperatureUnit := some "F" }

/-- An environment on which every step of get_weather succeeds but the
upstream period name is "Error". -/
def spoofEnv : ProviderEnv :=
  { census := fun _ => .exn
    geocode := fun _ _ _ => .found 40 (-74)
    points := fun _ _ => .resp 200 fcPointsBody
    forecast := fun _ => .resp 200 { periods := some [spoofPeriod] } }

/-- C10: there is upstream data on which get_weather fully succeeds — the
fetch returns a forecast string and the envelope is the success branch —
yet the single text block begins with "Error: ", so that prefix does not
discriminate failure from success at the public interface. -/
theorem error_prefix_not_discriminating :
    (fetchWeatherForecast spoofEnv 40 (-74)).1 = some "Error: Sunny at 70°F"
      ∧ (get_weather spoofEnv (some "Boston") none).1
          = okText "Error: Sunny at 70°F"
      ∧ "Error: Sunny at 70°F" = "Error: " ++ "Sunny at 70°F" :=
  ⟨rfl, rfl, rfl⟩

end WeatherMCP
